import Mathlib

/-!
Shallow embedding of `src/visualize.py` (class `Visualize` of the lispy
repository) together with theorems settling the specification claims.

Modelling conventions:
* A floating-point cell value is `Val`: either a rational number or the
  missing marker `NaN` (`Val.nan`).  Equality testing between floats follows
  IEEE semantics (`floatEq`): `NaN` compares unequal to everything.
* A text grid file is represented after whitespace tokenization and numeric
  parsing: a list of lines, each line a list of numeric cells.  A file
  system is a partial map from path to file content; `none` means the file
  cannot be opened.
* Python exceptions are modelled with `Except PyErr`; `PyErr.ioError`
  stands for `IOError`/`OSError` (what a failed `open`/read raises, and what
  `readCache` raises explicitly), `PyErr.valueError` for `ValueError`
  (what numpy/xarray shape errors raise).
* Timestamps are integers: `pd.date_range(start, periods, freq)` becomes
  the arithmetic sequence `start + j * freq`.
-/

/-- A floating-point cell: a numeric value or the missing marker NaN. -/
inductive Val where
  | num (x : ℚ)
  | nan
deriving DecidableEq, Repr

/-- IEEE-style float equality used by the numpy comparison `data == undef`:
NaN is equal to nothing, numbers compare by value. -/
def floatEq : Val → Val → Bool
  | Val.num a, Val.num b => if a = b then true else false
  | _, _ => false

/-- Python exception classes relevant to this module. -/
inductive PyErr where
  | ioError (msg : String)
  | valueError (msg : String)
deriving DecidableEq, Repr

/-- Whether an exception is of class `IOError`/`OSError`. -/
def PyErr.isIOError : PyErr → Bool
  | PyErr.ioError _ => true
  | _ => false

/-- A 2D float table (`pandas.DataFrame` values / `numpy` 2D array). -/
abbrev Table := List (List Val)

/-- A grid text file after whitespace tokenization and numeric parsing:
each line is the list of its numeric cells. -/
abbrev GridFile := List (List Val)

/-- File system for grid output files: path to content, `none` = unreadable. -/
abbrev FileSys := String → Option GridFile

/-- A cached domain file exposing `lat` and `lon` coordinate arrays. -/
abbrev CacheFile := List ℚ × List ℚ

/-- File system for cached reference files. -/
abbrev CacheSys := String → Option CacheFile

namespace Visualize

/-- `Visualize.__defineMap`: the hardcoded basemap tile source URL.  The
resulting `gv.WMTS` layer is identified by this URL. -/
def defineMap : String :=
  "https://server.arcgisonline.com/ArcGIS/rest/services/World_Imagery/MapServer/tile/{Z}/{Y}/{X}.jpg"

/-- `Visualize.readData(filename, headerNum=6)`:
`pd.read_csv(filename, skiprows=headerNum, header=None, sep="\s+")`.
The first `headerNum` lines are skipped; the remaining lines are
whitespace-split into numeric rows (blank lines are dropped, pandas'
default `skip_blank_lines=True`).  A file that cannot be opened raises an
I/O error. -/
def readData (fs : FileSys) (filename : String) (headerNum : Nat) :
    Except PyErr Table :=
  match fs filename with
  | none => Except.error (PyErr.ioError ("cannot open " ++ filename))
  | some lines =>
      Except.ok (((lines.drop headerNum)).filter (fun r => !r.isEmpty))

/-- `Visualize.readCache(filename, kind="nc")`: if `kind == "nc"`, open the
dataset and return its `lat` and `lon` coordinate arrays; otherwise raise
`IOError("data type %s is not supported." % kind)` without touching any
file. -/
def readCache (cfs : CacheSys) (filename : String) (kind : String) :
    Except PyErr (List ℚ × List ℚ) :=
  if kind = "nc" then
    match cfs filename with
    | none => Except.error (PyErr.ioError ("cannot open " ++ filename))
    | some (lats, lons) => Except.ok (lats, lons)
  else
    Except.error (PyErr.ioError ("data type " ++ kind ++ " is not supported."))

/-- The numpy masking statement `data[data == undef] = np.nan` on a float
array: every cell comparing equal to `undef` becomes NaN. -/
def maskUndef (df : Table) (undef : ℚ) : Table :=
  df.map (fun row => row.map (fun c => if floatEq c (Val.num undef) then Val.nan else c))

/-- An `xarray.DataArray` with `lat`/`lon` coordinate axes and a name. -/
structure DArray where
  data : Table
  lat : List ℚ
  lon : List ℚ
  name : String
deriving DecidableEq, Repr

/-- `Visualize.constDataArray(df, lats, lons, name, undef=-9999)` on a
float-dtype frame.  `data = df.values` is a view of the frame's single
float block, so the in-place assignment `data[data == undef] = np.nan`
also updates the caller's `df`; the call is modelled by explicit state
passing and returns `(df after the call, constructed DataArray)`. -/
def constDataArray (df : Table) (lats lons : List ℚ) (name : String)
    (undef : ℚ) : Table × DArray :=
  let data := maskUndef df undef
  (data, DArray.mk data lats lons name)

/-- `Visualize.constDataArray` on an integer-dtype frame: `df.values` is an
integer array, and the numpy assignment `data[data == undef] = np.nan`
raises `ValueError` as soon as some cell equals `undef` (NaN cannot be
stored in an integer array); with no matching cell the assignment is a
no-op and the DataArray holds the integer values. -/
def constDataArrayInt (df : List (List ℤ)) (lats lons : List ℚ) (name : String)
    (undef : ℤ) : Except PyErr (List (List ℤ) × DArray) :=
  if df.any (fun row => row.any (fun c => c = undef)) then
    Except.error (PyErr.valueError "cannot convert float NaN to integer")
  else
    Except.ok (df, DArray.mk (df.map (fun r => r.map (fun c => Val.num (c : ℚ)))) lats lons name)

/-- An `xarray` dataset obtained by concatenating DataArrays along a new
"time" dimension and labeling that dimension with timestamps. -/
structure DSet where
  frames : List DArray
  times : List ℤ
deriving DecidableEq, Repr

/-- `Visualize.constDataSet(dArrayList, dateList)`:
`xr.concat(dArrayList, "time")` followed by `dataset["time"] = dateList`.
`xr.concat` raises `ValueError` on an empty list; the coordinate
assignment raises `ValueError` when `dateList` does not match the length
of the new "time" dimension. -/
def constDataSet (dArrayList : List DArray) (dateList : List ℤ) :
    Except PyErr DSet :=
  if dArrayList.isEmpty then
    Except.error (PyErr.valueError "must supply at least one object to concatenate")
  else if dateList.length ≠ dArrayList.length then
    Except.error (PyErr.valueError "conflicting sizes for dimension time")
  else
    Except.ok (DSet.mk dArrayList dateList)

/-- The data handed to `plotMap`: a single DataArray (`show`) or a
time-indexed dataset (`animate`). -/
inductive PlotData where
  | arr (a : DArray)
  | set (s : DSet)
deriving DecidableEq, Repr

/-- The overlay object built by `Visualize.plotMap`: the image of the data,
its presentation options, and the fixed basemap layer it is overlaid on. -/
structure Overlay where
  source : PlotData
  name : String
  width : Nat
  height : Nat
  cmap : String
  regridded : Bool
  alpha : ℚ
  tiles : String
deriving DecidableEq, Repr

/-- `Visualize.plotMap(dArray, name, width=500, height=250,
cmap="gist_earth_r", dataShader=True, alpha=0.5)`: wrap the data as an
image keyed on (lon, lat) and `name`, optionally regrid it through
datashader, apply presentation options and overlay on `self.mapTiles`. -/
def plotMap (mapTiles : String) (d : PlotData) (name : String)
    (width height : Nat) (cmap : String) (dataShader : Bool) (alpha : ℚ) :
    Overlay :=
  Overlay.mk d name width height cmap dataShader alpha mapTiles

/-- `pd.date_range(start=startDate, periods=periods, freq=freq)`:
`periods` timestamps starting at `startDate`, spaced by `freq`; a negative
`periods` raises `ValueError`. -/
def dateRange (start : ℤ) (periods : ℤ) (freq : ℤ) : Except PyErr (List ℤ) :=
  if periods < 0 then
    Except.error (PyErr.valueError "Number of samples must be non-negative")
  else
    Except.ok ((List.range periods.toNat).map (fun j : ℕ => start + (j : ℤ) * freq))

/-- Python `range(startIdx, endIdx)` over integers. -/
def rangeInt (startIdx endIdx : ℤ) : List ℤ :=
  (List.range (endIdx - startIdx).toNat).map (fun j : ℕ => startIdx + (j : ℤ))

/-- `Visualize.show(filename, name, cacheFile, dataShader=True, undef=-9999)`:
read grid file, read reference coordinates, build the labeled array, render
to map.  Any failure propagates unchanged. -/
def «show» (fs : FileSys) (cfs : CacheSys) (mapTiles : String)
    (filename name cacheFile : String) (dataShader : Bool) (undef : ℚ) :
    Except PyErr Overlay := do
  let df ← readData fs filename 6
  let lc ← readCache cfs cacheFile "nc"
  let dArray := (constDataArray df lc.1 lc.2 name undef).2
  Except.ok (plotMap mapTiles (PlotData.arr dArray) name 500 250 "gist_earth_r" dataShader (1/2))

/-- One iteration of the `animate` loop: `filename = filenamefmt % i`,
`df = self.readData(filename)`, `dArray = self.constDataArray(...)`. -/
def readFrame (fs : FileSys) (lats lons : List ℚ) (name : String) (undef : ℚ)
    (filename : String) : Except PyErr DArray := do
  let df ← readData fs filename 6
  Except.ok (constDataArray df lats lons name undef).2

/-- `Visualize.animate(filenamefmt, name, cacheFile, startIdx, endIdx,
startDate, freq, dataShader=True, undef=-9999)`: build the timestamp
sequence, read the cache, read and shape one frame per index of
`range(startIdx, endIdx)` in order, concatenate along "time" and render.
`filenamefmt` is modelled as the function `i ↦ filenamefmt % i`. -/
def animate (fs : FileSys) (cfs : CacheSys) (mapTiles : String)
    (filenamefmt : ℤ → String) (name cacheFile : String)
    (startIdx endIdx : ℤ) (startDate freq : ℤ) (dataShader : Bool)
    (undef : ℚ) : Except PyErr Overlay := do
  let periods := endIdx - startIdx
  let dateList ← dateRange startDate periods freq
  let lc ← readCache cfs cacheFile "nc"
  let dArrayList ← (rangeInt startIdx endIdx).mapM
    (fun i => readFrame fs lc.1 lc.2 name undef (filenamefmt i))
  let dSet ← constDataSet dArrayList dateList
  Except.ok (plotMap mapTiles (PlotData.set dSet) name 500 250 "gist_earth_r" dataShader (1/2))

end Visualize

section Helpers

/-- The cell-level mask never produces the sentinel value. -/
lemma maskCell_ne_undef (c : Val) (undef : ℚ) :
    (if floatEq c (Val.num undef) then Val.nan else c) ≠ Val.num undef := by
  cases c with
  | num x =>
      by_cases hx : x = undef
      · simp [floatEq, hx]
      · simp [floatEq, hx]
  | nan => simp [floatEq]

/-- On float cells the numpy comparison with a numeric sentinel agrees with
plain equality of values. -/
lemma maskCell_eq_ite (c : Val) (undef : ℚ) :
    (if floatEq c (Val.num undef) then Val.nan else c)
      = (if c = Val.num undef then Val.nan else c) := by
  cases c with
  | num x =>
      by_cases hx : x = undef
      · simp [floatEq, hx]
      · simp [floatEq, hx]
  | nan => simp [floatEq]

/-- The row-level masking, rewritten with plain equality. -/
lemma maskUndef_eq_map (df : Table) (undef : ℚ) :
    Visualize.maskUndef df undef
      = df.map (fun row => row.map
          (fun c => if c = Val.num undef then Val.nan else c)) := by
  unfold Visualize.maskUndef
  have hf : (fun c => if floatEq c (Val.num undef) then Val.nan else c)
      = (fun c => if c = Val.num undef then Val.nan else c) :=
    funext (fun c => maskCell_eq_ite c undef)
  rw [hf]

/-- A map that fixes a list fixes each of its elements. -/
lemma map_eq_self_mem {α : Type} (f : α → α) :
    ∀ l : List α, l.map f = l → ∀ x ∈ l, f x = x := by
  intro l
  induction l with
  | nil => intro _ x hx; cases hx
  | cons a t ih =>
      intro h x hx
      rw [List.map_cons, List.cons.injEq] at h
      cases hx with
      | head => exact h.1
      | tail _ hxt => exact ih h.2 x hxt

end Helpers

/-- C1: for every table and sentinel `undef`, the DataArray built by
`constDataArray` has no cell equal to `undef`; each cell equal to `undef` is
replaced by NaN and every other cell is carried over unchanged; the given
latitude/longitude axes are attached and the result is named `name`. -/
theorem constDataArray_masks (df : Table) (lats lons : List ℚ) (name : String)
    (undef : ℚ) :
    (∀ row ∈ ((Visualize.constDataArray df lats lons name undef).2).data,
        ∀ c ∈ row, c ≠ Val.num undef)
  ∧ ((Visualize.constDataArray df lats lons name undef).2).data
      = df.map (fun row => row.map
          (fun c => if c = Val.num undef then Val.nan else c))
  ∧ ((Visualize.constDataArray df lats lons name undef).2).lat = lats
  ∧ ((Visualize.constDataArray df lats lons name undef).2).lon = lons
  ∧ ((Visualize.constDataArray df lats lons name undef).2).name = name := by
  refine ⟨?_, ?_, rfl, rfl, rfl⟩
  · intro row hrow c hc
    simp only [Visualize.constDataArray, Visualize.maskUndef, List.mem_map] at hrow
    rcases hrow with ⟨r, _, hr⟩
    rw [← hr] at hc
    rcases List.mem_map.mp hc with ⟨c0, _, hc0⟩
    rw [← hc0]
    exact maskCell_ne_undef c0 undef
  · show Visualize.maskUndef df undef = _
    exact maskUndef_eq_map df undef

/-- Witness for C1 at a concrete table containing the sentinel. -/
theorem constDataArray_masks_witness :
    (∀ row ∈ ((Visualize.constDataArray
        [[Val.num (-9999), Val.num 3], [Val.nan, Val.num (-9999)]]
        [1, 2] [4, 5] "width" (-9999)).2).data,
        ∀ c ∈ row, c ≠ Val.num (-9999))
  ∧ ((Visualize.constDataArray
        [[Val.num (-9999), Val.num 3], [Val.nan, Val.num (-9999)]]
        [1, 2] [4, 5] "width" (-9999)).2).data
      = [[Val.num (-9999), Val.num 3], [Val.nan, Val.num (-9999)]].map
          (fun row => row.map
            (fun c => if c = Val.num (-9999) then Val.nan else c))
  ∧ ((Visualize.constDataArray
        [[Val.num (-9999), Val.num 3], [Val.nan, Val.num (-9999)]]
        [1, 2] [4, 5] "width" (-9999)).2).lat = [1, 2]
  ∧ ((Visualize.constDataArray
        [[Val.num (-9999), Val.num 3], [Val.nan, Val.num (-9999)]]
        [1, 2] [4, 5] "width" (-9999)).2).lon = [4, 5]
  ∧ ((Visualize.constDataArray
        [[Val.num (-9999), Val.num 3], [Val.nan, Val.num (-9999)]]
        [1, 2] [4, 5] "width" (-9999)).2).name = "width" :=
  constDataArray_masks
    [[Val.num (-9999), Val.num 3], [Val.nan, Val.num (-9999)]]
    [1, 2] [4, 5] "width" (-9999)

/-- C9: on a float-dtype table containing the sentinel, `constDataArray`
mutates the caller's frame in place (through the `df.values` view): after
the call the frame holds NaN where the sentinel stood, so it is not left
unchanged. -/
theorem constDataArray_mutates (df : Table) (lats lons : List ℚ)
    (name : String) (undef : ℚ) (h : ∃ row ∈ df, Val.num undef ∈ row) :
    (Visualize.constDataArray df lats lons name undef).1
      = df.map (fun row => row.map
          (fun c => if c = Val.num undef then Val.nan else c))
  ∧ (Visualize.constDataArray df lats lons name undef).1 ≠ df := by
  constructor
  · exact maskUndef_eq_map df undef
  · intro heq
    have heq' : Visualize.maskUndef df undef = df := heq
    rcases h with ⟨row, hrow, hc⟩
    have hrowfix := map_eq_self_mem _ df heq' row hrow
    have hcellfix := map_eq_self_mem _ row hrowfix (Val.num undef) hc
    have : floatEq (Val.num undef) (Val.num undef) = true := by
      simp [floatEq]
    rw [this] at hcellfix
    simp at hcellfix

/-- Witness for C9 at a concrete float table holding the sentinel. -/
theorem constDataArray_mutates_witness :
    (∃ row ∈ [[Val.num (-9999), Val.num 3]], Val.num (-9999 : ℚ) ∈ row)
  ∧ ((Visualize.constDataArray [[Val.num (-9999), Val.num 3]]
        [1] [4, 5] "depth" (-9999)).1
      = [[Val.num (-9999), Val.num 3]].map (fun row => row.map
          (fun c => if c = Val.num (-9999) then Val.nan else c))
    ∧ (Visualize.constDataArray [[Val.num (-9999), Val.num 3]]
        [1] [4, 5] "depth" (-9999)).1 ≠ [[Val.num (-9999), Val.num 3]]) :=
  ⟨⟨[Val.num (-9999), Val.num 3], by simp, by simp⟩,
    constDataArray_mutates [[Val.num (-9999), Val.num 3]] [1] [4, 5]
      "depth" (-9999)
      ⟨[Val.num (-9999), Val.num 3], by simp, by simp⟩⟩

/-- C10: on an integer-dtype table containing the sentinel,
`constDataArray` raises (`ValueError`: NaN cannot be stored into an integer
array) instead of returning a masked DataArray. -/
theorem constDataArrayInt_raises (df : List (List ℤ)) (lats lons : List ℚ)
    (name : String) (undef : ℤ) (h : ∃ row ∈ df, undef ∈ row) :
    Visualize.constDataArrayInt df lats lons name undef
      = Except.error (PyErr.valueError "cannot convert float NaN to integer") := by
  have hb : df.any (fun row => row.any (fun c => c = undef)) = true := by
    simp only [List.any_eq_true, decide_eq_true_eq]
    rcases h with ⟨row, hrow, hc⟩
    exact ⟨row, hrow, undef, hc, rfl⟩
  unfold Visualize.constDataArrayInt
  rw [if_pos hb]

/-- Witness for C10 at a concrete integer table holding the sentinel. -/
theorem constDataArrayInt_raises_witness :
    (∃ row ∈ [[(-9999 : ℤ), 7]], (-9999 : ℤ) ∈ row)
  ∧ Visualize.constDataArrayInt [[(-9999 : ℤ), 7]] [1] [4, 5] "depth" (-9999)
      = Except.error (PyErr.valueError "cannot convert float NaN to integer") :=
  ⟨⟨[(-9999 : ℤ), 7], by simp, by simp⟩,
    constDataArrayInt_raises [[(-9999 : ℤ), 7]] [1] [4, 5] "depth" (-9999)
      ⟨[(-9999 : ℤ), 7], by simp, by simp⟩⟩

/-- C2 counterexample: at the concrete unsupported format "csv", the error
`readCache` raises is of class `IOError` — the very class of I/O errors —
so the claim that it is an error distinct from an I/O error is false. -/
theorem readCache_unsupported_counterexample :
    Visualize.readCache (fun _ => none) "cache.bin" "csv"
      = Except.error (PyErr.ioError "data type csv is not supported.")
  ∧ PyErr.isIOError (PyErr.ioError "data type csv is not supported.")
      = true :=
  ⟨rfl, rfl⟩

/-- C2 amended: for every format other than "nc", `readCache` fails
immediately with the unsupported-format message, raised before any file is
opened (the result does not depend on the file system at all) — but the
error is raised as an `IOError`, the same class as I/O errors, not a
distinct error class. -/
theorem readCache_unsupported (cfs : CacheSys) (filename kind : String)
    (h : kind ≠ "nc") :
    Visualize.readCache cfs filename kind
      = Except.error
          (PyErr.ioError ("data type " ++ kind ++ " is not supported."))
  ∧ ∀ cfs' : CacheSys,
      Visualize.readCache cfs' filename kind
        = Visualize.readCache cfs filename kind := by
  constructor
  · unfold Visualize.readCache
    rw [if_neg h]
  · intro cfs'
    unfold Visualize.readCache
    rw [if_neg h, if_neg h]

/-- Witness for C2 (amended) at the concrete format "csv". -/
theorem readCache_unsupported_witness :
    "csv" ≠ "nc"
  ∧ (Visualize.readCache (fun _ => none) "cache.bin" "csv"
      = Except.error
          (PyErr.ioError ("data type " ++ "csv" ++ " is not supported."))
    ∧ ∀ cfs' : CacheSys,
        Visualize.readCache cfs' "cache.bin" "csv"
          = Visualize.readCache (fun _ => none) "cache.bin" "csv") :=
  ⟨by decide, readCache_unsupported (fun _ => none) "cache.bin" "csv" (by decide)⟩

/-- C5: on a valid grid file (at least `headerNum` header lines, data rows
rectangular with a positive number of columns), `readData` returns exactly
the lines after the first `headerNum` ones — skipping exactly `headerNum`
lines, dropping no data row — so the table shape is
(lines - headerNum) rows by `cols` columns. -/
theorem readData_shape (fs : FileSys) (filename : String) (headerNum : Nat)
    (lines : GridFile) (cols : Nat)
    (hfile : fs filename = some lines)
    (hheader : headerNum ≤ lines.length)
    (hrect : ∀ row ∈ lines.drop headerNum, row.length = cols)
    (hpos : 0 < cols) :
    Visualize.readData fs filename headerNum = Except.ok (lines.drop headerNum)
  ∧ (lines.drop headerNum).length = lines.length - headerNum := by
  have hfilter : ((lines.drop headerNum).filter (fun r => !r.isEmpty))
      = lines.drop headerNum := by
    apply List.filter_eq_self.mpr
    intro r hr
    have hlen := hrect r hr
    cases r with
    | nil => simp at hlen; omega
    | cons a t => simp
  constructor
  · unfold Visualize.readData
    rw [hfile]
    exact congrArg Except.ok hfilter
  · simp

/-- Witness for C5 on a concrete 8-line file: 6 headers plus two 3-column
data rows. -/
theorem readData_shape_witness :
    ((fun _ : String => some
        ([[Val.num 9], [Val.num 9], [Val.num 9], [Val.num 9], [Val.num 9],
          [Val.num 9],
          [Val.num 1, Val.num 2, Val.num 3],
          [Val.num 4, Val.num 5, Val.num 6]] : GridFile)) "grid.txt"
      = some
        [[Val.num 9], [Val.num 9], [Val.num 9], [Val.num 9], [Val.num 9],
          [Val.num 9],
          [Val.num 1, Val.num 2, Val.num 3],
          [Val.num 4, Val.num 5, Val.num 6]])
  ∧ 6 ≤ ([[Val.num 9], [Val.num 9], [Val.num 9], [Val.num 9], [Val.num 9],
          [Val.num 9],
          [Val.num 1, Val.num 2, Val.num 3],
          [Val.num 4, Val.num 5, Val.num 6]] : GridFile).length
  ∧ (∀ row ∈ ([[Val.num 9], [Val.num 9], [Val.num 9], [Val.num 9],
          [Val.num 9], [Val.num 9],
          [Val.num 1, Val.num 2, Val.num 3],
          [Val.num 4, Val.num 5, Val.num 6]] : GridFile).drop 6,
        row.length = 3)
  ∧ (0 : Nat) < 3
  ∧ (Visualize.readData (fun _ => some
        [[Val.num 9], [Val.num 9], [Val.num 9], [Val.num 9], [Val.num 9],
          [Val.num 9],
          [Val.num 1, Val.num 2, Val.num 3],
          [Val.num 4, Val.num 5, Val.num 6]]) "grid.txt" 6
      = Except.ok
          (([[Val.num 9], [Val.num 9], [Val.num 9], [Val.num 9], [Val.num 9],
            [Val.num 9],
            [Val.num 1, Val.num 2, Val.num 3],
            [Val.num 4, Val.num 5, Val.num 6]] : GridFile).drop 6)
    ∧ (([[Val.num 9], [Val.num 9], [Val.num 9], [Val.num 9], [Val.num 9],
          [Val.num 9],
          [Val.num 1, Val.num 2, Val.num 3],
          [Val.num 4, Val.num 5, Val.num 6]] : GridFile).drop 6).length
        = ([[Val.num 9], [Val.num 9], [Val.num 9], [Val.num 9], [Val.num 9],
            [Val.num 9],
            [Val.num 1, Val.num 2, Val.num 3],
            [Val.num 4, Val.num 5, Val.num 6]] : GridFile).length - 6) :=
  ⟨rfl, by simp, by decide, by decide,
    readData_shape _ "grid.txt" 6 _ 3 rfl (by simp) (by decide) (by decide)⟩

/-- C6: whenever the two lists have different lengths, `constDataSet` fails
with a `ValueError` (a dimension/shape error) and never returns a dataset
obtained by truncating the longer list. -/
theorem constDataSet_mismatch (l : List Visualize.DArray) (t : List ℤ)
    (h : l.length ≠ t.length) :
    (∃ msg, Visualize.constDataSet l t
        = Except.error (PyErr.valueError msg))
  ∧ ∀ d, Visualize.constDataSet l t ≠ Except.ok d := by
  have hmain : ∃ msg, Visualize.constDataSet l t
      = Except.error (PyErr.valueError msg) := by
    unfold Visualize.constDataSet
    by_cases hl : l.isEmpty
    · rw [if_pos hl]
      exact ⟨_, rfl⟩
    · rw [if_neg hl, if_pos (Ne.symm h)]
      exact ⟨_, rfl⟩
  refine ⟨hmain, ?_⟩
  intro d hd
  rcases hmain with ⟨msg, hmsg⟩
  rw [hmsg] at hd
  exact Except.noConfusion hd

/-- Witness for C6: one DataArray against an empty timestamp list. -/
theorem constDataSet_mismatch_witness :
    ([Visualize.DArray.mk [[Val.num 1]] [1] [2] "a"].length
        ≠ ([] : List ℤ).length)
  ∧ ((∃ msg, Visualize.constDataSet
        [Visualize.DArray.mk [[Val.num 1]] [1] [2] "a"] []
          = Except.error (PyErr.valueError msg))
    ∧ ∀ d, Visualize.constDataSet
        [Visualize.DArray.mk [[Val.num 1]] [1] [2] "a"] []
          ≠ Except.ok d) :=
  ⟨by decide,
    constDataSet_mismatch [Visualize.DArray.mk [[Val.num 1]] [1] [2] "a"] []
      (by decide)⟩

/-- C4 counterexample: at the concrete equal-length pair `([], [])` (n = 0),
`constDataSet` does not return a dataset with a time axis of length 0 —
`xr.concat` of an empty list raises `ValueError`. -/
theorem constDataSet_empty_counterexample :
    ([] : List Visualize.DArray).length = ([] : List ℤ).length
  ∧ Visualize.constDataSet [] []
      = Except.error
          (PyErr.valueError "must supply at least one object to concatenate") :=
  ⟨rfl, rfl⟩

/-- C4 amended: for every pair of equal length n ≥ 1, `constDataSet`
returns a dataset whose time axis has length n and preserves input order:
the frames are exactly `dArrayList` and the time coordinates exactly
`dateList`, with no permutation. -/
theorem constDataSet_order (l : List Visualize.DArray) (t : List ℤ)
    (hlen : l.length = t.length) (hne : l ≠ []) :
    ∃ d : Visualize.DSet,
      Visualize.constDataSet l t = Except.ok d
    ∧ d.times.length = l.length
    ∧ d.frames = l
    ∧ d.times = t := by
  have hl : ¬(l.isEmpty = true) := by
    simp only [List.isEmpty_iff]
    exact hne
  refine ⟨Visualize.DSet.mk l t, ?_, hlen.symm, rfl, rfl⟩
  unfold Visualize.constDataSet
  rw [if_neg hl, if_neg (fun hc => hc hlen.symm)]

/-- Witness for C4 (amended) at a concrete one-element pair. -/
theorem constDataSet_order_witness :
    ([Visualize.DArray.mk [[Val.num 1]] [1] [2] "a"].length
        = [(0 : ℤ)].length)
  ∧ ([Visualize.DArray.mk [[Val.num 1]] [1] [2] "a"]
        ≠ ([] : List Visualize.DArray))
  ∧ ∃ d : Visualize.DSet,
      Visualize.constDataSet
          [Visualize.DArray.mk [[Val.num 1]] [1] [2] "a"] [(0 : ℤ)]
        = Except.ok d
    ∧ d.times.length
        = [Visualize.DArray.mk [[Val.num 1]] [1] [2] "a"].length
    ∧ d.frames = [Visualize.DArray.mk [[Val.num 1]] [1] [2] "a"]
    ∧ d.times = [(0 : ℤ)] :=
  ⟨by decide, by decide,
    constDataSet_order [Visualize.DArray.mk [[Val.num 1]] [1] [2] "a"]
      [(0 : ℤ)] (by decide) (by decide)⟩

/-- C8: `show` is a deterministic transformation of its arguments, the
fixed basemap layer and the contents of the two files it reads: two
invocations with the same arguments against file systems agreeing on those
files produce equal overlay objects. -/
theorem show_deterministic (fs fs' : FileSys) (cfs cfs' : CacheSys)
    (mapTiles filename name cacheFile : String) (dataShader : Bool)
    (undef : ℚ)
    (hf : fs filename = fs' filename)
    (hc : cfs cacheFile = cfs' cacheFile) :
    Visualize.«show» fs cfs mapTiles filename name cacheFile dataShader undef
      = Visualize.«show» fs' cfs' mapTiles filename name cacheFile
          dataShader undef := by
  have h1 : Visualize.readData fs filename 6
      = Visualize.readData fs' filename 6 := by
    unfold Visualize.readData
    rw [hf]
  have h2 : Visualize.readCache cfs cacheFile "nc"
      = Visualize.readCache cfs' cacheFile "nc" := by
    unfold Visualize.readCache
    rw [hc]
  unfold Visualize.«show»
  rw [h1, h2]

/-- Witness for C8: two file systems that differ outside the two files
`show` reads still yield equal overlays. -/
theorem show_deterministic_witness :
    ((fun p : String => if p = "grid.txt"
        then some ([[Val.num 1]] : GridFile) else none) "grid.txt"
      = (fun p : String => if p = "grid.txt"
        then some ([[Val.num 1]] : GridFile)
        else some ([] : GridFile)) "grid.txt")
  ∧ ((fun p : String => if p = "cache.nc"
        then some (([3], [4]) : CacheFile) else none) "cache.nc"
      = (fun p : String => if p = "cache.nc"
        then some (([3], [4]) : CacheFile)
        else some (([], []) : CacheFile)) "cache.nc")
  ∧ Visualize.«show»
        (fun p => if p = "grid.txt" then some [[Val.num 1]] else none)
        (fun p => if p = "cache.nc" then some ([3], [4]) else none)
        Visualize.defineMap "grid.txt" "depth" "cache.nc" true (-9999)
      = Visualize.«show»
        (fun p => if p = "grid.txt" then some [[Val.num 1]] else some [])
        (fun p => if p = "cache.nc" then some ([3], [4]) else some ([], []))
        Visualize.defineMap "grid.txt" "depth" "cache.nc" true (-9999) :=
  ⟨by simp, by simp,
    show_deterministic _ _ _ _ Visualize.defineMap "grid.txt" "depth"
      "cache.nc" true (-9999) (by simp) (by simp)⟩

section LoopHelpers

/-- `mapM` over `Except` succeeds when every element succeeds, producing
the elementwise results in order. -/
lemma mapM_ok_of_forall {α β : Type} (f : α → Except PyErr β) (g : α → β) :
    ∀ l : List α, (∀ a ∈ l, f a = Except.ok (g a)) →
      l.mapM f = Except.ok (l.map g) := by
  intro l
  induction l with
  | nil => intro _; rfl
  | cons a t ih =>
      intro h
      have ha := h a (List.mem_cons_self a t)
      have ht := ih (fun x hx => h x (List.mem_cons_of_mem a hx))
      rw [List.map_cons, List.mapM_cons, ha, ht]
      rfl

/-- `mapM` over `Except` fails with the error of the first failing element
when everything before it succeeds. -/
lemma mapM_error_first {α β : Type} (f : α → Except PyErr β) (e : PyErr) :
    ∀ (l1 : List α) (x : α) (l2 : List α),
      (∀ a ∈ l1, ∃ b, f a = Except.ok b) → f x = Except.error e →
      (l1 ++ x :: l2).mapM f = Except.error e := by
  intro l1
  induction l1 with
  | nil =>
      intro x l2 _ hx
      rw [List.nil_append, List.mapM_cons, hx]
      rfl
  | cons a t ih =>
      intro x l2 h hx
      rcases h a (List.mem_cons_self a t) with ⟨b, hb⟩
      have ht := ih x l2 (fun y hy => h y (List.mem_cons_of_mem a hy)) hx
      rw [List.cons_append, List.mapM_cons, hb]
      show ((t ++ x :: l2).mapM f >>= fun bs => pure (b :: bs))
          = Except.error e
      rw [ht]
      rfl

/-- Length of the integer range. -/
lemma rangeInt_length (s e : ℤ) :
    (Visualize.rangeInt s e).length = (e - s).toNat := by
  simp [Visualize.rangeInt]

/-- Membership in the integer range. -/
lemma mem_rangeInt {s e i : ℤ} :
    i ∈ Visualize.rangeInt s e ↔ s ≤ i ∧ i < e := by
  simp only [Visualize.rangeInt, List.mem_map, List.mem_range]
  constructor
  · rintro ⟨j, hj, rfl⟩
    omega
  · rintro ⟨h1, h2⟩
    exact ⟨(i - s).toNat, by omega, by omega⟩

/-- The j-th element of the integer range. -/
lemma rangeInt_getElem (s e : ℤ) (j : ℕ) (hj : j < (e - s).toNat) :
    (Visualize.rangeInt s e)[j]? = some (s + (j : ℤ)) := by
  simp only [Visualize.rangeInt]
  rw [List.getElem?_map, List.getElem?_range hj]
  rfl

/-- Splitting the integer range at an interior point `k`. -/
lemma rangeInt_split (s k e : ℤ) (h1 : s ≤ k) (h2 : k < e) :
    Visualize.rangeInt s e
      = Visualize.rangeInt s k ++ k :: Visualize.rangeInt (k + 1) e := by
  have hn : (e - s).toNat = (k - s).toNat + ((e - (k + 1)).toNat + 1) := by
    omega
  unfold Visualize.rangeInt
  rw [hn, List.range_add, List.map_append]
  congr 1
  simp only [List.range_succ_eq_map, List.map_cons, List.map_map,
    Function.comp_def]
  congr 1
  · omega
  · apply List.map_congr_left
    intro j _
    omega

end LoopHelpers

/-- Bind on `Except` after a success. -/
lemma except_bind_ok {α β : Type} (a : α) (f : α → Except PyErr β) :
    (Except.ok a >>= f) = f a := rfl

/-- Bind on `Except` after a failure. -/
lemma except_bind_error {α β : Type} (e : PyErr) (f : α → Except PyErr β) :
    ((Except.error e : Except PyErr α) >>= f) = Except.error e := rfl

/-- C3 counterexample: at the concrete boundary case startIdx = endIdx = 0
(with the cache and every file readable), `animate` does not produce a
0-step time-indexed array: `xr.concat` of the empty frame list raises
`ValueError`. -/
theorem animate_empty_counterexample :
    (0 : ℤ) ≤ 0
  ∧ Visualize.animate (fun _ => some [[Val.num 1]])
      (fun _ => some ([1], [2])) "tiles" (fun _ => "f0") "depth" "cache.nc"
      0 0 100 1 true (-9999)
      = Except.error
          (PyErr.valueError "must supply at least one object to concatenate") :=
  ⟨le_refl 0, rfl⟩

/-- C3 amended: for all startIdx < endIdx with a readable cache and every
indexed file readable, `animate` builds the timestamp sequence of length
endIdx - startIdx starting at startDate spaced by freq, reads and shapes
one frame per index in increasing order, and concatenates them so that
time step j carries timestamp startDate + j * freq and the frame shaped
from the file of index startIdx + j. -/
theorem animate_frames (fs : FileSys) (cfs : CacheSys) (mapTiles : String)
    (fmt : ℤ → String) (name cacheFile : String)
    (startIdx endIdx : ℤ) (startDate freq : ℤ) (dataShader : Bool)
    (undef : ℚ) (lats lons : List ℚ) (content : ℤ → GridFile)
    (hlt : startIdx < endIdx)
    (hcache : cfs cacheFile = some (lats, lons))
    (hfiles : ∀ i, startIdx ≤ i → i < endIdx → fs (fmt i) = some (content i)) :
    ∃ d : Visualize.DSet,
      Visualize.animate fs cfs mapTiles fmt name cacheFile startIdx endIdx
          startDate freq dataShader undef
        = Except.ok (Visualize.plotMap mapTiles (Visualize.PlotData.set d)
            name 500 250 "gist_earth_r" dataShader (1/2))
    ∧ d.times.length = (endIdx - startIdx).toNat
    ∧ d.frames.length = (endIdx - startIdx).toNat
    ∧ ∀ j : ℕ, j < (endIdx - startIdx).toNat →
        d.times[j]? = some (startDate + (j : ℤ) * freq)
      ∧ d.frames[j]? = some
          ((Visualize.constDataArray
            (((content (startIdx + (j : ℤ))).drop 6).filter
              (fun r => !r.isEmpty))
            lats lons name undef).2) := by
  set g : ℤ → Visualize.DArray := fun i =>
    (Visualize.constDataArray (((content i).drop 6).filter
      (fun r => !r.isEmpty)) lats lons name undef).2 with hg
  set dlist : List ℤ :=
    (List.range (endIdx - startIdx).toNat).map
      (fun j : ℕ => startDate + (j : ℤ) * freq) with hdlist
  set frames : List Visualize.DArray :=
    (Visualize.rangeInt startIdx endIdx).map g with hframes
  have h1 : Visualize.dateRange startDate (endIdx - startIdx) freq
      = Except.ok dlist := by
    unfold Visualize.dateRange
    rw [if_neg (by omega)]
  have h2 : Visualize.readCache cfs cacheFile "nc"
      = Except.ok (lats, lons) := by
    unfold Visualize.readCache
    rw [if_pos rfl, hcache]
  have hframe : ∀ i ∈ Visualize.rangeInt startIdx endIdx,
      Visualize.readFrame fs lats lons name undef (fmt i)
        = Except.ok (g i) := by
    intro i hi
    rcases mem_rangeInt.mp hi with ⟨hi1, hi2⟩
    have hd : Visualize.readData fs (fmt i) 6
        = Except.ok (((content i).drop 6).filter (fun r => !r.isEmpty)) := by
      unfold Visualize.readData
      rw [hfiles i hi1 hi2]
    unfold Visualize.readFrame
    rw [hd]
    rfl
  have h4 : (Visualize.rangeInt startIdx endIdx).mapM
      (fun i => Visualize.readFrame fs lats lons name undef (fmt i))
        = Except.ok frames :=
    mapM_ok_of_forall _ g _ hframe
  have hflen : frames.length = (endIdx - startIdx).toNat := by
    rw [hframes, List.length_map, rangeInt_length]
  have hdlen : dlist.length = (endIdx - startIdx).toNat := by
    rw [hdlist, List.length_map, List.length_range]
  have h5 : Visualize.constDataSet frames dlist
      = Except.ok (Visualize.DSet.mk frames dlist) := by
    unfold Visualize.constDataSet
    have hne : ¬(frames.isEmpty = true) := by
      simp only [List.isEmpty_iff]
      intro hnil
      rw [hnil] at hflen
      simp at hflen
      omega
    rw [if_neg hne, if_neg (by omega)]
  refine ⟨Visualize.DSet.mk frames dlist, ?_, hdlen, hflen, ?_⟩
  · have key : Visualize.animate fs cfs mapTiles fmt name cacheFile
        startIdx endIdx startDate freq dataShader undef
        = (Visualize.dateRange startDate (endIdx - startIdx) freq
            >>= fun dateList =>
          Visualize.readCache cfs cacheFile "nc" >>= fun lc =>
          (Visualize.rangeInt startIdx endIdx).mapM
            (fun i => Visualize.readFrame fs lc.1 lc.2 name undef (fmt i))
            >>= fun dArrayList =>
          Visualize.constDataSet dArrayList dateList >>= fun dSet =>
          Except.ok (Visualize.plotMap mapTiles
            (Visualize.PlotData.set dSet) name 500 250 "gist_earth_r"
            dataShader (1/2))) := rfl
    rw [key, h1, except_bind_ok, h2, except_bind_ok]
    show ((Visualize.rangeInt startIdx endIdx).mapM
        (fun i => Visualize.readFrame fs lats lons name undef (fmt i))
      >>= fun dArrayList => Visualize.constDataSet dArrayList dlist
      >>= fun dSet => Except.ok (Visualize.plotMap mapTiles
        (Visualize.PlotData.set dSet) name 500 250 "gist_earth_r"
        dataShader (1/2))) = _
    rw [h4, except_bind_ok, h5, except_bind_ok]
  · intro j hj
    constructor
    · rw [hdlist, List.getElem?_map, List.getElem?_range hj]
      rfl
    · show frames[j]? = _
      rw [hframes, List.getElem?_map, rangeInt_getElem startIdx endIdx j hj]
      rfl

/-- Witness for C3 (amended): two frames, startDate 100, freq 1. -/
theorem animate_frames_witness :
    ((0 : ℤ) < 2)
  ∧ ((fun _ : String => some (([1], [2]) : CacheFile)) "cache.nc"
      = some (([1], [2]) : CacheFile))
  ∧ (∀ i : ℤ, 0 ≤ i → i < 2 →
      (fun _ : String => some ([] : GridFile)) ((fun _ : ℤ => "f") i)
        = some ((fun _ : ℤ => ([] : GridFile)) i))
  ∧ ∃ d : Visualize.DSet,
      Visualize.animate (fun _ => some []) (fun _ => some ([1], [2]))
          "tiles" (fun _ => "f") "depth" "cache.nc" 0 2 100 1 true (-9999)
        = Except.ok (Visualize.plotMap "tiles" (Visualize.PlotData.set d)
            "depth" 500 250 "gist_earth_r" true (1/2))
    ∧ d.times.length = ((2 : ℤ) - 0).toNat
    ∧ d.frames.length = ((2 : ℤ) - 0).toNat
    ∧ ∀ j : ℕ, j < ((2 : ℤ) - 0).toNat →
        d.times[j]? = some (100 + (j : ℤ) * 1)
      ∧ d.frames[j]? = some
          ((Visualize.constDataArray
            ((((fun _ : ℤ => ([] : GridFile)) ((0 : ℤ) + (j : ℤ))).drop 6).filter
              (fun r => !r.isEmpty))
            [1] [2] "depth" (-9999)).2) :=
  ⟨by decide, rfl, fun _ _ _ => rfl,
    animate_frames (fun _ => some []) (fun _ => some ([1], [2])) "tiles"
      (fun _ => "f") "depth" "cache.nc" 0 2 100 1 true (-9999) [1] [2]
      (fun _ => []) (by decide) rfl (fun _ _ _ => rfl)⟩

/-- C7: when the cache is readable and the file of index k is the first
unreadable one among [startIdx, endIdx), `animate` fails with the I/O
error of index k and returns no overlay and no partial result. -/
theorem animate_failfast (fs : FileSys) (cfs : CacheSys) (mapTiles : String)
    (fmt : ℤ → String) (name cacheFile : String)
    (startIdx endIdx k : ℤ) (startDate freq : ℤ) (dataShader : Bool)
    (undef : ℚ) (lats lons : List ℚ) (content : ℤ → GridFile)
    (hcache : cfs cacheFile = some (lats, lons))
    (hk1 : startIdx ≤ k) (hk2 : k < endIdx)
    (hbefore : ∀ i, startIdx ≤ i → i < k → fs (fmt i) = some (content i))
    (hmiss : fs (fmt k) = none) :
    Visualize.animate fs cfs mapTiles fmt name cacheFile startIdx endIdx
        startDate freq dataShader undef
      = Except.error (PyErr.ioError ("cannot open " ++ fmt k))
  ∧ ∀ o, Visualize.animate fs cfs mapTiles fmt name cacheFile startIdx
        endIdx startDate freq dataShader undef ≠ Except.ok o := by
  set dlist : List ℤ :=
    (List.range (endIdx - startIdx).toNat).map
      (fun j : ℕ => startDate + (j : ℤ) * freq) with hdlist
  have h1 : Visualize.dateRange startDate (endIdx - startIdx) freq
      = Except.ok dlist := by
    unfold Visualize.dateRange
    rw [if_neg (by omega)]
  have h2 : Visualize.readCache cfs cacheFile "nc"
      = Except.ok (lats, lons) := by
    unfold Visualize.readCache
    rw [if_pos rfl, hcache]
  have herr : Visualize.readFrame fs lats lons name undef (fmt k)
      = Except.error (PyErr.ioError ("cannot open " ++ fmt k)) := by
    have hd : Visualize.readData fs (fmt k) 6
        = Except.error (PyErr.ioError ("cannot open " ++ fmt k)) := by
      unfold Visualize.readData
      rw [hmiss]
    unfold Visualize.readFrame
    rw [hd]
    rfl
  have hok : ∀ i ∈ Visualize.rangeInt startIdx k,
      ∃ b, Visualize.readFrame fs lats lons name undef (fmt i)
        = Except.ok b := by
    intro i hi
    rcases mem_rangeInt.mp hi with ⟨hi1, hi2⟩
    have hd : Visualize.readData fs (fmt i) 6
        = Except.ok (((content i).drop 6).filter (fun r => !r.isEmpty)) := by
      unfold Visualize.readData
      rw [hbefore i hi1 hi2]
    refine ⟨(Visualize.constDataArray (((content i).drop 6).filter
      (fun r => !r.isEmpty)) lats lons name undef).2, ?_⟩
    unfold Visualize.readFrame
    rw [hd]
    rfl
  have hmapM : (Visualize.rangeInt startIdx endIdx).mapM
      (fun i => Visualize.readFrame fs lats lons name undef (fmt i))
        = Except.error (PyErr.ioError ("cannot open " ++ fmt k)) := by
    rw [rangeInt_split startIdx k endIdx hk1 hk2]
    exact mapM_error_first _ _ _ k _ hok herr
  have hmain : Visualize.animate fs cfs mapTiles fmt name cacheFile
      startIdx endIdx startDate freq dataShader undef
        = Except.error (PyErr.ioError ("cannot open " ++ fmt k)) := by
    have key : Visualize.animate fs cfs mapTiles fmt name cacheFile
        startIdx endIdx startDate freq dataShader undef
        = (Visualize.dateRange startDate (endIdx - startIdx) freq
            >>= fun dateList =>
          Visualize.readCache cfs cacheFile "nc" >>= fun lc =>
          (Visualize.rangeInt startIdx endIdx).mapM
            (fun i => Visualize.readFrame fs lc.1 lc.2 name undef (fmt i))
            >>= fun dArrayList =>
          Visualize.constDataSet dArrayList dateList >>= fun dSet =>
          Except.ok (Visualize.plotMap mapTiles
            (Visualize.PlotData.set dSet) name 500 250 "gist_earth_r"
            dataShader (1/2))) := rfl
    rw [key, h1, except_bind_ok, h2, except_bind_ok]
    show ((Visualize.rangeInt startIdx endIdx).mapM
        (fun i => Visualize.readFrame fs lats lons name undef (fmt i))
      >>= fun dArrayList => Visualize.constDataSet dArrayList dlist
      >>= fun dSet => Except.ok (Visualize.plotMap mapTiles
        (Visualize.PlotData.set dSet) name 500 250 "gist_earth_r"
        dataShader (1/2))) = _
    rw [hmapM, except_bind_error]
  refine ⟨hmain, ?_⟩
  intro o ho
  rw [hmain] at ho
  exact Except.noConfusion ho

/-- Witness for C7: the very first indexed file is unreadable. -/
theorem animate_failfast_witness :
    ((fun _ : String => some (([1], [2]) : CacheFile)) "cache.nc"
      = some (([1], [2]) : CacheFile))
  ∧ ((0 : ℤ) ≤ 0)
  ∧ ((0 : ℤ) < 2)
  ∧ (∀ i : ℤ, 0 ≤ i → i < 0 →
      (fun _ : String => (none : Option GridFile)) ((fun _ : ℤ => "f") i)
        = some ((fun _ : ℤ => ([] : GridFile)) i))
  ∧ ((fun _ : String => (none : Option GridFile)) ((fun _ : ℤ => "f") 0)
      = none)
  ∧ (Visualize.animate (fun _ => none) (fun _ => some ([1], [2])) "tiles"
        (fun _ => "f") "depth" "cache.nc" 0 2 100 1 true (-9999)
      = Except.error (PyErr.ioError ("cannot open " ++ "f"))
    ∧ ∀ o, Visualize.animate (fun _ => none) (fun _ => some ([1], [2]))
        "tiles" (fun _ => "f") "depth" "cache.nc" 0 2 100 1 true (-9999)
          ≠ Except.ok o) :=
  ⟨rfl, by decide, by decide,
    fun _ hi1 hi2 => absurd (hi1.trans_lt hi2) (lt_irrefl 0), rfl,
    animate_failfast (fun _ => none) (fun _ => some ([1], [2])) "tiles"
      (fun _ => "f") "depth" "cache.nc" 0 2 0 100 1 true (-9999) [1] [2]
      (fun _ => []) rfl (by decide) (by decide)
      (fun _ hi1 hi2 => absurd (hi1.trans_lt hi2) (lt_irrefl 0)) rfl⟩
